import Mathlib

/-!
Shallow embedding of the image-conversion core of the repository
(src/src/App.tsx, src/src/workers/conversionWorker.ts, and the shared
type/format modules) together with theorems settling the frozen claims.

Byte buffers are lists of naturals (each entry a byte, 0..255, as produced
by a Uint8Array view).  JavaScript numbers occurring in integer positions
are modelled as Nat/Int; the real-valued resize scale and the quality value
are modelled as rationals (the exact real arithmetic the code's float
expressions approximate).  The per-channel color transfer functions use
transcendental Math.pow and are not embedded (see the development notes on
the numerical claims); functions that only route around them take the
numeric kernel as an explicit parameter.
-/

namespace Convert

/-- ColorProfile from src/unnamed/part_000: 'srgb' | 'adobe-rgb' | 'unknown'. -/
inductive ColorProfile
  | srgb
  | adobeRgb
  | unknown
deriving DecidableEq, Repr

/-- WorkingColorProfile = Exclude<ColorProfile, 'unknown'>. -/
inductive WorkingColorProfile
  | srgb
  | adobeRgb
deriving DecidableEq, Repr

/-- SourceType from src/unnamed/part_000. -/
inductive SourceType
  | jpeg
  | png
deriving DecidableEq, Repr

/-- TargetType from src/unnamed/part_000. -/
inductive TargetType
  | avif
  | webp
  | jpeg
  | png
  | tiff
deriving DecidableEq, Repr

/-- ConversionStatus from src/src/App.tsx: 'pending' | 'processing' | 'done' | 'error'. -/
inductive ConversionStatus
  | pending
  | processing
  | done
  | error
deriving DecidableEq, Repr

/-- A decoded pixel buffer (the ImageData objects the pipeline passes
around): width, height and the interleaved 8-bit RGBA samples. -/
structure ImageData where
  width : Nat
  height : Nat
  data : List Nat
deriving DecidableEq, Repr

/-! ## ColorProfileDetector (detectJpegColorProfile, conversionWorker.ts 140-177)

The latin1 text decoding is modelled at the byte level: the decoder maps
bytes to code points injectively, the tested patterns are ASCII, and under
the regexes' non-unicode case canonicalization no byte above 0x7f can match
an ASCII pattern character, so substring tests on the decoded text are
byte-for-byte tests on the segment. -/

/-- Boolean test that the first list is an initial run of the second
(String.startsWith on the decoded latin1 text, byte level). -/
def begins : List Nat → List Nat → Bool
  | [], _ => true
  | _ :: _, [] => false
  | p :: ps, b :: bs => p == b && begins ps bs

/-- ASCII lowercasing of one byte: the effect of the /i regex flag on the
latin1-decoded text, restricted to the byte range (only A-Z fold). -/
def lowerByte (b : Nat) : Nat :=
  if 65 ≤ b ∧ b ≤ 90 then b + 32 else b

/-- Bytes matched by the regex class backslash-s within latin1 range:
tab, lf, vt, ff, cr, space, nbsp. -/
def jsWhitespaceB (b : Nat) : Bool :=
  b == 9 || b == 10 || b == 11 || b == 12 || b == 13 || b == 32 || b == 160

/-- One candidate position for /Adobe followed by optional whitespace and RGB/i
on an already-lowercased byte list. -/
def adobeHit (l : List Nat) : Bool :=
  begins [97, 100, 111, 98, 101, 114, 103, 98] l ||
    (begins [97, 100, 111, 98, 101] l &&
      match l.drop 5 with
      | c :: rest => jsWhitespaceB c && begins [114, 103, 98] rest
      | [] => false)

/-- One candidate position for /sRGB/i on a lowercased byte list. -/
def srgbHit (l : List Nat) : Bool :=
  begins [115, 114, 103, 98] l

/-- One candidate position for /IEC61966/i on a lowercased byte list. -/
def iecHit (l : List Nat) : Bool :=
  begins [105, 101, 99, 54, 49, 57, 54, 54] l

/-- Does a hit occur at some suffix (regex .test scans every position). -/
def anySuffix (hit : List Nat → Bool) : List Nat → Bool
  | [] => hit []
  | b :: rest => hit (b :: rest) || anySuffix hit rest

/-- /Adobe(optional ws)RGB/i.test(payload). -/
def adobeMatch (seg : List Nat) : Bool :=
  anySuffix adobeHit (seg.map lowerByte)

/-- /sRGB/i.test(payload). -/
def srgbMatch (seg : List Nat) : Bool :=
  anySuffix srgbHit (seg.map lowerByte)

/-- /IEC61966/i.test(payload). -/
def iecMatch (seg : List Nat) : Bool :=
  anySuffix iecHit (seg.map lowerByte)

/-- The bytes of the ASCII identifier ICC_PROFILE. -/
def iccId : List Nat :=
  [73, 67, 67, 95, 80, 82, 79, 70, 73, 76, 69]

/-- Outcome of one iteration of the marker scan loop: either the loop
continues at a new offset, or the function returns a profile (the loop
guard failing, a break, and an early return all end with a definite
profile value). -/
inductive ScanOutcome
  | next (offset : Nat)
  | halt (result : ColorProfile)
deriving DecidableEq, Repr

/-- One iteration of the while loop of detectJpegColorProfile
(conversionWorker.ts 145-174).  The running JS offset mutations are
expressed as fixed displacements from the iteration's entry offset:
after reading the marker pair the JS offset is entry+2, after the length
bytes entry+4, and the malformed-length test offset+length-2 over the
length-checked value is written entry+2+length to avoid truncated
subtraction.  bytes[i] is List.getD (in-range for every read the guards
allow). -/
def scanStep (bytes : List Nat) (offset : Nat) : ScanOutcome :=
  if offset + 4 < bytes.length then
    if bytes.getD offset 0 ≠ 0xff then ScanOutcome.next (offset + 1)
    else
      let marker := bytes.getD (offset + 1) 0
      if marker = 0xda ∨ marker = 0xd9 then ScanOutcome.halt ColorProfile.unknown
      else
        let segLength := (bytes.getD (offset + 2) 0) <<< 8 ||| bytes.getD (offset + 3) 0
        if segLength < 2 then ScanOutcome.halt ColorProfile.unknown
        else if offset + 2 + segLength > bytes.length then ScanOutcome.halt ColorProfile.unknown
        else if marker = 0xe2 then
          let segment := (bytes.drop (offset + 4)).take (segLength - 2)
          if 14 ≤ segment.length ∧ begins iccId segment then
            if adobeMatch segment then ScanOutcome.halt ColorProfile.adobeRgb
            else if srgbMatch segment ∨ iecMatch segment then ScanOutcome.halt ColorProfile.srgb
            else ScanOutcome.next (offset + 2 + segLength)
          else ScanOutcome.next (offset + 2 + segLength)
        else ScanOutcome.next (offset + 2 + segLength)
  else ScanOutcome.halt ColorProfile.unknown

/-- The scan loop, iterated under explicit fuel.  none means the fuel ran
out before the loop finished; the termination theorem shows fuel
bytes.length never does. -/
def scanFuel : Nat → List Nat → Nat → Option ColorProfile
  | 0, _, _ => none
  | fuel + 1, bytes, offset =>
    match scanStep bytes offset with
    | ScanOutcome.halt r => some r
    | ScanOutcome.next o => scanFuel fuel bytes o

/-- detectJpegColorProfile (conversionWorker.ts 140-177): SOI check, then
the marker scan.  The loop is run with fuel bytes.length, which the
termination theorem proves sufficient, so the getD default is dead code. -/
def detectJpegColorProfile (bytes : List Nat) : ColorProfile :=
  if bytes.length < 4 ∨ bytes.getD 0 0 ≠ 0xff ∨ bytes.getD 1 0 ≠ 0xd8 then
    ColorProfile.unknown
  else
    (scanFuel bytes.length bytes 2).getD ColorProfile.unknown

/-! ### Reference reformulation of the detector (for the refinement claim)

The claim describes the detector through the segment structure of the
buffer: the APP2 segments the scan walks before the terminating marker,
and a per-segment match condition.  The definitions below follow those
words: the walk collects the (marker, payload) segments the scan
visits, and the result is the classification of the first segment that
matches, with the Adobe pattern tested before the sRGB/IEC61966 ones. -/

/-- One iteration of the segment walk: none stops the walk (loop guard
failed, terminating marker, malformed length); otherwise the iteration
yields the segment it visited, when one exists, and the next offset. -/
def segStep (bytes : List Nat) (offset : Nat) : Option (Option (Nat × List Nat) × Nat) :=
  if offset + 4 < bytes.length then
    if bytes.getD offset 0 ≠ 0xff then some (none, offset + 1)
    else
      let marker := bytes.getD (offset + 1) 0
      if marker = 0xda ∨ marker = 0xd9 then none
      else
        let segLength := (bytes.getD (offset + 2) 0) <<< 8 ||| bytes.getD (offset + 3) 0
        if segLength < 2 then none
        else if offset + 2 + segLength > bytes.length then none
        else some (some (marker, (bytes.drop (offset + 4)).take (segLength - 2)), offset + 2 + segLength)
  else none

/-- The list of (marker, payload) segments the scan visits, under fuel. -/
def segmentsFuel : Nat → List Nat → Nat → List (Nat × List Nat)
  | 0, _, _ => []
  | fuel + 1, bytes, offset =>
    match segStep bytes offset with
    | none => []
    | some (none, o) => segmentsFuel fuel bytes o
    | some (some seg, o) => seg :: segmentsFuel fuel bytes o

/-- The marker segments of a buffer, in scan order, from the first offset
past the SOI marker. -/
def jpegSegments (bytes : List Nat) : List (Nat × List Nat) :=
  segmentsFuel bytes.length bytes 2

/-- Per-segment classification as the claim words it: an APP2 segment
(marker 0xe2) whose payload begins with the ASCII identifier ICC_PROFILE
yields Adobe-RGB when its text matches the Adobe RGB pattern, else sRGB
when it matches sRGB or IEC61966; anything else matches no profile. -/
def classifySegment : Nat × List Nat → Option ColorProfile
  | (marker, payload) =>
    if marker = 0xe2 ∧ begins iccId payload then
      if adobeMatch payload then some ColorProfile.adobeRgb
      else if srgbMatch payload ∨ iecMatch payload then some ColorProfile.srgb
      else none
    else none

/-- The detector as the (amended) claim describes it: Unknown unless the
buffer starts with SOI and is long enough; otherwise the classification
of the first matching segment of the scan, Unknown when no segment
matches before the scan terminates. -/
def detectJpegColorProfileSpec (bytes : List Nat) : ColorProfile :=
  if bytes.length < 4 ∨ bytes.getD 0 0 ≠ 0xff ∨ bytes.getD 1 0 ≠ 0xd8 then
    ColorProfile.unknown
  else
    ((jpegSegments bytes).findSome? classifySegment).getD ColorProfile.unknown

/-- The literal substring test the original claim asks for: the latin1
text contains "Adobe RGB" (with the single space), case-insensitively. -/
def containsAdobeRgbText (seg : List Nat) : Bool :=
  anySuffix (fun l => begins [97, 100, 111, 98, 101, 32, 114, 103, 98] l) (seg.map lowerByte)

/-! ## ConversionPipeline helpers (conversionWorker.ts) -/

/-- resolveWorkingProfile (conversionWorker.ts 189-190). -/
def resolveWorkingProfile (profile : ColorProfile) : WorkingColorProfile :=
  match profile with
  | ColorProfile.adobeRgb => WorkingColorProfile.adobeRgb
  | _ => WorkingColorProfile.srgb

/-- The per-pixel loop of convertColorSpace (conversionWorker.ts 199-210):
steps of four samples, rewrites red, green, blue through the numeric
kernel, leaves alpha alone.  The ImageData invariant makes the data length
a multiple of four, so the trailing wildcard arm is unreachable there. -/
def applyPixelLoop (kernel : Nat × Nat × Nat → Nat × Nat × Nat) : List Nat → List Nat
  | r :: g :: b :: a :: rest =>
    match kernel (r, g, b) with
    | (r2, g2, b2) => r2 :: g2 :: b2 :: a :: applyPixelLoop kernel rest
  | other => other

/-- convertColorSpace (conversionWorker.ts 192-213).  The floating-point
channel transform (transfer functions and 3x3 matrices) is the explicit
kernel parameter; the function embeds the control flow around it: the
identity short-circuit for equal profiles and the four-sample pixel walk. -/
def convertColorSpace (kernel : WorkingColorProfile → WorkingColorProfile → Nat × Nat × Nat → Nat × Nat × Nat)
    (imageData : ImageData) (fromProfile toProfile : WorkingColorProfile) : ImageData :=
  if fromProfile = toProfile then imageData
  else { imageData with data := applyPixelLoop (kernel fromProfile toProfile) imageData.data }

/-- Math.round for the nonnegative quantities appearing here (JS rounds
half away from zero for positive arguments, i.e. floor of x + 1/2). -/
def jsRound (x : ℚ) : Int :=
  Int.floor (x + 1 / 2)

/-- resizeImageData (conversionWorker.ts 233-249).  The canvas draw that
produces the resampled samples is the abstract resample parameter (it can
fail: createSurface throws when no drawing surface exists); everything
else - the identity early returns and the target-dimension arithmetic -
is embedded.  The JS falsy test on shortEdge (absent, null, 0) is the
none/nonpositive split; the scale and rounding use exact rationals for
the code's float expressions. -/
def resizeImageData (resample : ImageData → Nat → Nat → Except String (List Nat))
    (imageData : ImageData) (shortEdge : Option Int) : Except String ImageData :=
  match shortEdge with
  | none => Except.ok imageData
  | some se =>
    if se ≤ 0 then Except.ok imageData
    else
      let currentShort := min imageData.width imageData.height
      if (currentShort : Int) = se then Except.ok imageData
      else
        let targetWidth := (max 1 (jsRound ((imageData.width : ℚ) * (se : ℚ) / (currentShort : ℚ)))).toNat
        let targetHeight := (max 1 (jsRound ((imageData.height : ℚ) * (se : ℚ) / (currentShort : ℚ)))).toNat
        if targetWidth = imageData.width ∧ targetHeight = imageData.height then Except.ok imageData
        else
          match resample imageData targetWidth targetHeight with
          | Except.error e => Except.error e
          | Except.ok pixels => Except.ok { width := targetWidth, height := targetHeight, data := pixels }

/-- mapAvifQuality (conversionWorker.ts 251-255): clamp the UI value to
0..100, scale to the encoder's 0..63, round, floor at 1. -/
def mapAvifQuality (uiValue : ℚ) : Int :=
  let normalized := min 100 (max 0 uiValue)
  let encoderValue := jsRound (normalized / 100 * 63)
  max 1 encoderValue

/-! ## ContainerEncoder (encodeTiff, conversionWorker.ts 257-311)

The DataView writes are modelled as in-place updates of a byte list that
starts zero-filled (ArrayBuffer zero initialization), with little-endian
multi-byte splitting exactly as setUint16/setUint32 with littleEndian
true produce. -/

/-- setUint8. -/
def setByte (l : List Nat) (i v : Nat) : List Nat :=
  l.set i (v % 256)

/-- setUint16 little-endian. -/
def setU16LE (l : List Nat) (i v : Nat) : List Nat :=
  (l.set i (v % 256)).set (i + 1) (v / 256 % 256)

/-- setUint32 little-endian. -/
def setU32LE (l : List Nat) (i v : Nat) : List Nat :=
  (((l.set i (v % 256)).set (i + 1) (v / 256 % 256)).set
      (i + 2) (v / 65536 % 256)).set (i + 3) (v / 16777216 % 256)

/-- Uint8Array.set of a whole list at an offset. -/
def writeBytes : List Nat → Nat → List Nat → List Nat
  | l, _, [] => l
  | l, i, v :: vs => writeBytes (l.set i (v % 256)) (i + 1) vs

/-- The RGBA-to-RGB extraction loop of encodeTiff (conversionWorker.ts
261-265): every fourth byte (alpha) is dropped, the stores into the
Uint8Array coerce modulo 256. -/
def tiffRgbData : List Nat → List Nat
  | r :: g :: b :: _ :: rest => r % 256 :: g % 256 :: b % 256 :: tiffRgbData rest
  | _ => []

/-- encodeTiff (conversionWorker.ts 257-311). -/
def encodeTiff (imageData : ImageData) : List Nat :=
  let width := imageData.width
  let height := imageData.height
  let rgbData := tiffRgbData imageData.data
  let entryCount := 10
  let headerSize := 8
  let ifdSize := 2 + entryCount * 12 + 4
  let bitsPerSampleSize := 6
  let bitsPerSampleOffset := headerSize + ifdSize
  let imageOffset := bitsPerSampleOffset + bitsPerSampleSize
  let totalSize := imageOffset + rgbData.length
  let buffer := List.replicate totalSize 0
  let buffer := setByte buffer 0 0x49
  let buffer := setByte buffer 1 0x49
  let buffer := setU16LE buffer 2 42
  let buffer := setU32LE buffer 4 8
  let ifdStart := 8
  let buffer := setU16LE buffer ifdStart entryCount
  let writeEntry := fun (buf : List Nat) (index tag entryType count value : Nat) =>
    let offset := ifdStart + 2 + index * 12
    setU32LE (setU32LE (setU16LE (setU16LE buf offset tag) (offset + 2) entryType)
      (offset + 4) count) (offset + 8) value
  let buffer := writeEntry buffer 0 256 4 1 width
  let buffer := writeEntry buffer 1 257 4 1 height
  let buffer := writeEntry buffer 2 258 3 3 bitsPerSampleOffset
  let buffer := writeEntry buffer 3 259 3 1 1
  let buffer := writeEntry buffer 4 262 3 1 2
  let buffer := writeEntry buffer 5 273 4 1 imageOffset
  let buffer := writeEntry buffer 6 277 3 1 3
  let buffer := writeEntry buffer 7 278 4 1 height
  let buffer := writeEntry buffer 8 279 4 1 rgbData.length
  let buffer := writeEntry buffer 9 284 3 1 1
  let buffer := setU32LE buffer (ifdStart + 2 + entryCount * 12) 0
  let buffer := setU16LE (setU16LE (setU16LE buffer bitsPerSampleOffset 8)
    (bitsPerSampleOffset + 2) 8) (bitsPerSampleOffset + 4) 8
  writeBytes buffer imageOffset rgbData

/-! ## Worker messages and the format registry -/

/-- WorkerConvertRequest from src/unnamed/part_000 (fileName omitted: the
worker never reads it). -/
structure WorkerConvertRequest where
  id : String
  sourceType : SourceType
  targetType : TargetType
  targetColorSpace : WorkingColorProfile
  targetQuality : ℚ
  shortEdge : Option Int
  buffer : List Nat
deriving DecidableEq, Repr

/-- WorkerResponse from src/unnamed/part_000 (progress, done, error). -/
inductive WorkerResponse
  | progress (id : String) (progress : Nat)
  | done (id : String) (buffer : List Nat) (mime : TargetType) (sourceProfile : ColorProfile)
  | error (id : String) (message : String)
deriving DecidableEq, Repr

/-- One entry of FORMAT_OPTIONS (src/unnamed/part_001 lines 41-47). -/
structure FormatOption where
  value : TargetType
  label : String
  extension : String
  supportsQuality : Bool
deriving DecidableEq, Repr

/-- FORMAT_OPTIONS: the format registry. -/
def FORMAT_OPTIONS : List FormatOption :=
  [⟨TargetType.avif, "AVIF", "avif", true⟩,
   ⟨TargetType.webp, "WebP", "webp", true⟩,
   ⟨TargetType.jpeg, "JPEG", "jpg", true⟩,
   ⟨TargetType.png, "PNG", "png", false⟩,
   ⟨TargetType.tiff, "TIFF", "tiff", false⟩]

/-- FORMAT_LOOKUP[t].supportsQuality: the registry tag consulted by the
quality-independence claim. -/
def formatSupportsQuality (t : TargetType) : Bool :=
  ((FORMAT_OPTIONS.find? fun o => o.value == t).map fun o => o.supportsQuality).getD false

/-- encodeByFormat (conversionWorker.ts 313-344).  The four external
codecs are parameters receiving exactly the data the code hands them:
the AVIF encoder the remapped quality, WebP and JPEG the raw UI quality,
PNG the bit depth 8 and no quality; the TIFF branch is the in-scope
container writer.  The fixed codec options (speed, method, progressive,
and the rest) are constants inside the opaque encoders. -/
def encodeByFormat (encAvif : ImageData → Int → Except String (List Nat))
    (encWebp : ImageData → ℚ → Except String (List Nat))
    (encJpeg : ImageData → ℚ → Except String (List Nat))
    (encPng : ImageData → Nat → Except String (List Nat))
    (imageData : ImageData) (request : WorkerConvertRequest) : Except String (List Nat) :=
  match request.targetType with
  | TargetType.avif => encAvif imageData (mapAvifQuality request.targetQuality)
  | TargetType.webp => encWebp imageData request.targetQuality
  | TargetType.jpeg => encJpeg imageData request.targetQuality
  | TargetType.png => encPng imageData 8
  | TargetType.tiff => Except.ok (encodeTiff imageData)

/-- decodeSourceImage (conversionWorker.ts 179-187): for JPEG sources run
the profile detector on the raw bytes and then the external JPEG decoder;
for PNG decode and fix the profile to sRGB. -/
def decodeSourceImage (decJpeg decPng : List Nat → Except String ImageData)
    (sourceType : SourceType) (buffer : List Nat) : Except String (ImageData × ColorProfile) :=
  match sourceType with
  | SourceType.jpeg =>
    let profile := detectJpegColorProfile buffer
    match decJpeg buffer with
    | Except.error e => Except.error e
    | Except.ok imageData => Except.ok (imageData, profile)
  | SourceType.png =>
    match decPng buffer with
    | Except.error e => Except.error e
    | Except.ok imageData => Except.ok (imageData, ColorProfile.srgb)

/-- ctx.onmessage (conversionWorker.ts 346-376): the whole pipeline runs
inside one try/catch; the value is the ordered list of messages the
worker posts for the request.  Fallible collaborators (codec
initialization, the external decoders, the canvas resample, the external
encoders) are Except-valued parameters; a failure anywhere lands in the
catch arm, which posts the single error message. -/
def handleMessage (codecInit : Except String Unit)
    (decJpeg decPng : List Nat → Except String ImageData)
    (resample : ImageData → Nat → Nat → Except String (List Nat))
    (kernel : WorkingColorProfile → WorkingColorProfile → Nat × Nat × Nat → Nat × Nat × Nat)
    (encAvif : ImageData → Int → Except String (List Nat))
    (encWebp : ImageData → ℚ → Except String (List Nat))
    (encJpeg : ImageData → ℚ → Except String (List Nat))
    (encPng : ImageData → Nat → Except String (List Nat))
    (message : WorkerConvertRequest) : List WorkerResponse :=
  match codecInit with
  | Except.error e => [WorkerResponse.error message.id e]
  | Except.ok _ =>
    match decodeSourceImage decJpeg decPng message.sourceType message.buffer with
    | Except.error e =>
      [WorkerResponse.progress message.id 20, WorkerResponse.error message.id e]
    | Except.ok (imageData, profile) =>
      match resizeImageData resample imageData message.shortEdge with
      | Except.error e =>
        [WorkerResponse.progress message.id 20, WorkerResponse.progress message.id 45,
         WorkerResponse.error message.id e]
      | Except.ok resized =>
        let converted := convertColorSpace kernel resized (resolveWorkingProfile profile)
          message.targetColorSpace
        match encodeByFormat encAvif encWebp encJpeg encPng converted message with
        | Except.error e =>
          [WorkerResponse.progress message.id 20, WorkerResponse.progress message.id 45,
           WorkerResponse.progress message.id 70, WorkerResponse.error message.id e]
        | Except.ok encodedBuffer =>
          [WorkerResponse.progress message.id 20, WorkerResponse.progress message.id 45,
           WorkerResponse.progress message.id 70,
           WorkerResponse.done message.id encodedBuffer message.targetType profile]

/-- The failure condition of a pipeline run: the message of the first
stage that fails along the execution path, none when every stage
succeeds.  This mirrors the order in which ctx.onmessage reaches the
fallible collaborators. -/
def pipelineFailure (codecInit : Except String Unit)
    (decJpeg decPng : List Nat → Except String ImageData)
    (resample : ImageData → Nat → Nat → Except String (List Nat))
    (kernel : WorkingColorProfile → WorkingColorProfile → Nat × Nat × Nat → Nat × Nat × Nat)
    (encAvif : ImageData → Int → Except String (List Nat))
    (encWebp : ImageData → ℚ → Except String (List Nat))
    (encJpeg : ImageData → ℚ → Except String (List Nat))
    (encPng : ImageData → Nat → Except String (List Nat))
    (message : WorkerConvertRequest) : Option String :=
  match codecInit with
  | Except.error e => some e
  | Except.ok _ =>
    match decodeSourceImage decJpeg decPng message.sourceType message.buffer with
    | Except.error e => some e
    | Except.ok (imageData, profile) =>
      match resizeImageData resample imageData message.shortEdge with
      | Except.error e => some e
      | Except.ok resized =>
        match encodeByFormat encAvif encWebp encJpeg encPng
            (convertColorSpace kernel resized (resolveWorkingProfile profile)
              message.targetColorSpace) message with
        | Except.error e => some e
        | Except.ok _ => none

/-- Is a worker response an error message. -/
def isErrorResp : WorkerResponse → Bool
  | WorkerResponse.error _ _ => true
  | _ => false

/-- Is a worker response a done message (the result artifact). -/
def isDoneResp : WorkerResponse → Bool
  | WorkerResponse.done _ _ _ _ => true
  | _ => false

/-- The task id a worker response is keyed by. -/
def respId : WorkerResponse → String
  | WorkerResponse.progress i _ => i
  | WorkerResponse.done i _ _ _ => i
  | WorkerResponse.error i _ => i

/-! ## The App-level dispatch (src/src/App.tsx 440-551)

handleStartConversion iterates over the jobs currently in pending state
and calls runConversion on each; runConversion synchronously moves its
job to processing (App.tsx 442) before any asynchronous work.  At the
job-status level the dispatch is therefore the map below: every pending
job becomes processing at once, other statuses are untouched. -/

/-- handleStartConversion (App.tsx 547-551) acting on the status of each
queued job. -/
def handleStartConversion (jobs : List ConversionStatus) : List ConversionStatus :=
  jobs.map fun s => if s = ConversionStatus.pending then ConversionStatus.processing else s

/-- The number of simultaneously busy jobs: jobs in processing state
(the population the activeJobs selector filters on). -/
def busyCount : List ConversionStatus → Nat
  | [] => 0
  | ConversionStatus.processing :: rest => busyCount rest + 1
  | _ :: rest => busyCount rest

/-- The number of jobs waiting in pending state. -/
def pendingCount : List ConversionStatus → Nat
  | [] => 0
  | ConversionStatus.pending :: rest => pendingCount rest + 1
  | _ :: rest => pendingCount rest

/-! ## Little-endian readers (used to state the container layout claim) -/

/-- Read a 16-bit little-endian value from a byte list. -/
def readU16LE (l : List Nat) (i : Nat) : Nat :=
  l.getD i 0 + 256 * l.getD (i + 1) 0

/-- Read a 32-bit little-endian value from a byte list. -/
def readU32LE (l : List Nat) (i : Nat) : Nat :=
  l.getD i 0 + 256 * l.getD (i + 1) 0 + 65536 * l.getD (i + 2) 0 +
    16777216 * l.getD (i + 3) 0

/-- A 2x2 fully red, fully opaque RGBA pixel buffer. -/
def red2x2Image : ImageData :=
  { width := 2, height := 2,
    data := [255, 0, 0, 255, 255, 0, 0, 255, 255, 0, 0, 255, 255, 0, 0, 255] }

/-! ## Theorems -/

section SchedulerClaims

/-- Helper: starting the queue moves every pending job to processing, so
the processing population is the old one plus every formerly pending job,
and nothing is left pending. -/
theorem busy_after_start (jobs : List ConversionStatus) :
    busyCount (handleStartConversion jobs) = busyCount jobs + pendingCount jobs ∧
    pendingCount (handleStartConversion jobs) = 0 := by
  induction jobs with
  | nil => exact ⟨rfl, rfl⟩
  | cons s rest ih =>
    cases s <;>
      simp [handleStartConversion, busyCount, pendingCount] at ih ⊢ <;>
      omega

/-- Helper: a queue of n pending jobs has no busy job and n pending. -/
theorem replicate_pending_counts (n : Nat) :
    busyCount (List.replicate n ConversionStatus.pending) = 0 ∧
    pendingCount (List.replicate n ConversionStatus.pending) = n := by
  induction n with
  | zero => exact ⟨rfl, rfl⟩
  | succ m ih =>
    simp [List.replicate_succ, busyCount, pendingCount] at ih ⊢
    omega

/-- C1 (counterexample): the claimed capacity invariant is false for the
dispatch in App.tsx.  handleStartConversion starts every pending job at
once, so no fixed bound N caps the number of simultaneously processing
jobs over all submission sequences: a queue of N+1 pending jobs exceeds
any candidate bound. -/
theorem busy_bound_counterexample :
    ¬ ∃ N : Nat, ∀ jobs : List ConversionStatus,
        busyCount (handleStartConversion jobs) ≤ N := by
  rintro ⟨N, h⟩
  have h1 := h (List.replicate (N + 1) ConversionStatus.pending)
  have h2 := busy_after_start (List.replicate (N + 1) ConversionStatus.pending)
  have h3 := replicate_pending_counts (N + 1)
  omega

/-- C1 (amended): starting the conversion queue marks every pending job
processing simultaneously: afterwards the busy count equals the prior
busy count plus the prior pending count (bounded only by the number of
submitted jobs, not by any fixed pool size), and no job is left pending. -/
theorem handleStartConversion_busy_eq (jobs : List ConversionStatus) :
    busyCount (handleStartConversion jobs) = busyCount jobs + pendingCount jobs ∧
    pendingCount (handleStartConversion jobs) = 0 :=
  busy_after_start jobs

end SchedulerClaims

/-- C5: the identity short-circuit.  For every numeric kernel, every pixel
buffer and either working profile X, converting from X to X returns the
buffer exactly unchanged: the profile-equality test at the top of
convertColorSpace returns the input before any sample is touched. -/
theorem convertColorSpace_identity
    (kernel : WorkingColorProfile → WorkingColorProfile → Nat × Nat × Nat → Nat × Nat × Nat)
    (imageData : ImageData) (x : WorkingColorProfile) :
    convertColorSpace kernel imageData x x = imageData := by
  simp [convertColorSpace]

/-- C10: mapAvifQuality is total on (real-valued) inputs and always lands
in the encoder's 1..63 range: the input is clamped to [0,100], scaled by
63/100, rounded to nearest, floored at 1; in particular UI quality 0 maps
to encoder quality 1. -/
theorem mapAvifQuality_range :
    (∀ v : ℚ, 1 ≤ mapAvifQuality v ∧ mapAvifQuality v ≤ 63) ∧
    mapAvifQuality 0 = 1 := by
  constructor
  · intro v
    unfold mapAvifQuality jsRound
    refine ⟨le_max_left 1 _, max_le (by norm_num) ?_⟩
    have hle : min 100 (max 0 v) ≤ 100 := min_le_left _ _
    have hx : min 100 (max 0 v) / 100 * 63 ≤ 63 := by nlinarith
    calc ⌊min 100 (max 0 v) / 100 * 63 + 1 / 2⌋
        ≤ ⌊(63 : ℚ) + 1 / 2⌋ := Int.floor_le_floor (by linarith)
      _ = 63 := by norm_num
  · norm_num [mapAvifQuality, jsRound]

set_option maxRecDepth 100000 in
/-- C3: the container writer is byte-exact on the 2x2 opaque red buffer:
little-endian byte-order mark 0x49 0x49 0x2a 0x00, IFD offset 8,
an entry count of 10 twelve-byte entries with width (tag 256) and height
(tag 257) both 2, a zero next-IFD pointer after the entries, the 6-byte
bits-per-sample array (8,8,8), and the 12-byte RGB payload obtained by
dropping every fourth (alpha) byte of the RGBA input; 152 bytes total. -/
theorem encodeTiff_red2x2_bytes :
    (encodeTiff red2x2Image).length = 8 + (2 + 10 * 12 + 4) + 6 + 12 ∧
    (encodeTiff red2x2Image).take 4 = [0x49, 0x49, 0x2a, 0x00] ∧
    readU32LE (encodeTiff red2x2Image) 4 = 8 ∧
    readU16LE (encodeTiff red2x2Image) 8 = 10 ∧
    readU16LE (encodeTiff red2x2Image) 10 = 256 ∧
    readU32LE (encodeTiff red2x2Image) 18 = 2 ∧
    readU16LE (encodeTiff red2x2Image) 22 = 257 ∧
    readU32LE (encodeTiff red2x2Image) 30 = 2 ∧
    readU32LE (encodeTiff red2x2Image) 130 = 0 ∧
    ((encodeTiff red2x2Image).drop 134).take 6 = [8, 0, 8, 0, 8, 0] ∧
    (encodeTiff red2x2Image).drop 140 = tiffRgbData red2x2Image.data ∧
    tiffRgbData red2x2Image.data = [255, 0, 0, 255, 0, 0, 255, 0, 0, 255, 0, 0] := by
  decide

/-- C6: the resampler contract.  The input comes back unchanged whenever
shortEdge is absent or nonpositive or equals the current short edge; and
for an 800x600 source with shortEdge 300 the target dimensions are
exactly 400x300 (scale 300/600, each dimension max 1 (round of dim *
scale)), whatever samples the drawing surface produces. -/
theorem resizeImageData_spec
    (resample : ImageData → Nat → Nat → Except String (List Nat)) (img : ImageData) :
    (resizeImageData resample img none = Except.ok img) ∧
    (∀ se : Int, se ≤ 0 → resizeImageData resample img (some se) = Except.ok img) ∧
    (∀ se : Int, ((min img.width img.height : Nat) : Int) = se →
      resizeImageData resample img (some se) = Except.ok img) ∧
    (∀ data : List Nat,
      resizeImageData resample { width := 800, height := 600, data := data } (some 300) =
        (resample { width := 800, height := 600, data := data } 400 300).map
          fun pixels => { width := 400, height := 300, data := pixels }) := by
  refine ⟨rfl, ?_, ?_, ?_⟩
  · intro se hse
    simp [resizeImageData, hse]
  · intro se hse
    rcases le_or_lt se 0 with h0 | h0
    · simp [resizeImageData, h0]
    · simp [resizeImageData, h0.not_le, hse]
  · intro data
    simp only [resizeImageData]
    norm_num [jsRound, sup_eq_max, max_def]
    cases hres : resample { width := 800, height := 600, data := data } 400 300 <;>
      simp [hres, Except.map]

/-- C6 witness: the contract evaluated at concrete inputs, every
hypothesis discharged there. -/
theorem resizeImageData_spec_witness :
    ((-2 : Int) ≤ 0 ∧ ((min 4 3 : Nat) : Int) = 3) ∧
    (resizeImageData (fun _ _ _ => Except.ok ([] : List Nat))
        { width := 4, height := 3, data := [] } none =
      Except.ok { width := 4, height := 3, data := [] }) ∧
    (resizeImageData (fun _ _ _ => Except.ok ([] : List Nat))
        { width := 4, height := 3, data := [] } (some (-2)) =
      Except.ok { width := 4, height := 3, data := [] }) ∧
    (resizeImageData (fun _ _ _ => Except.ok ([] : List Nat))
        { width := 4, height := 3, data := [] } (some 3) =
      Except.ok { width := 4, height := 3, data := [] }) ∧
    (resizeImageData (fun _ _ _ => Except.ok ([] : List Nat))
        { width := 800, height := 600, data := [] } (some 300) =
      Except.ok { width := 400, height := 300, data := [] }) :=
  ⟨⟨by decide, by decide⟩,
    (resizeImageData_spec (fun _ _ _ => Except.ok ([] : List Nat))
      { width := 4, height := 3, data := [] }).1,
    (resizeImageData_spec (fun _ _ _ => Except.ok ([] : List Nat))
      { width := 4, height := 3, data := [] }).2.1 (-2) (by decide),
    (resizeImageData_spec (fun _ _ _ => Except.ok ([] : List Nat))
      { width := 4, height := 3, data := [] }).2.2.1 3 (by decide),
    (resizeImageData_spec (fun _ _ _ => Except.ok ([] : List Nat))
      { width := 800, height := 600, data := [] }).2.2.2 []⟩

/-- C8: quality independence for the formats the registry does not tag
quality-parametrized.  When FORMAT_OPTIONS marks the target format's
supportsQuality false (PNG and TIFF), the encoded output of
encodeByFormat is the same for any two requests differing only in
targetQuality, whatever the external encoders do. -/
theorem encodeByFormat_quality_independent
    (encAvif : ImageData → Int → Except String (List Nat))
    (encWebp encJpeg : ImageData → ℚ → Except String (List Nat))
    (encPng : ImageData → Nat → Except String (List Nat))
    (imageData : ImageData) (request : WorkerConvertRequest) (q1 q2 : ℚ)
    (h : formatSupportsQuality request.targetType = false) :
    encodeByFormat encAvif encWebp encJpeg encPng imageData
        { request with targetQuality := q1 } =
      encodeByFormat encAvif encWebp encJpeg encPng imageData
        { request with targetQuality := q2 } := by
  rcases request with ⟨i, st, tt, tcs, tq, se, buf⟩
  cases tt <;> first
    | rfl
    | simp [formatSupportsQuality, FORMAT_OPTIONS, List.find?_cons, beq_iff_eq] at h

/-- C8 witness: a PNG-target request encoded at qualities 10 and 90
produces the same bytes. -/
theorem encodeByFormat_quality_independent_witness :
    formatSupportsQuality TargetType.png = false ∧
    encodeByFormat (fun _ _ => Except.ok ([] : List Nat)) (fun _ _ => Except.ok [])
        (fun _ _ => Except.ok []) (fun _ _ => Except.ok [])
        { width := 1, height := 1, data := [9, 8, 7, 255] }
        { id := "t", sourceType := SourceType.png, targetType := TargetType.png,
          targetColorSpace := WorkingColorProfile.srgb, targetQuality := 10,
          shortEdge := none, buffer := [] } =
      encodeByFormat (fun _ _ => Except.ok ([] : List Nat)) (fun _ _ => Except.ok [])
        (fun _ _ => Except.ok []) (fun _ _ => Except.ok [])
        { width := 1, height := 1, data := [9, 8, 7, 255] }
        { id := "t", sourceType := SourceType.png, targetType := TargetType.png,
          targetColorSpace := WorkingColorProfile.srgb, targetQuality := 90,
          shortEdge := none, buffer := [] } :=
  ⟨by decide,
    encodeByFormat_quality_independent (fun _ _ => Except.ok ([] : List Nat))
      (fun _ _ => Except.ok []) (fun _ _ => Except.ok []) (fun _ _ => Except.ok [])
      { width := 1, height := 1, data := [9, 8, 7, 255] }
      { id := "t", sourceType := SourceType.png, targetType := TargetType.png,
        targetColorSpace := WorkingColorProfile.srgb, targetQuality := 10,
        shortEdge := none, buffer := [] } 10 90 (by decide)⟩

/-- C7: error isolation.  Whenever any pipeline stage fails (codec
startup, decode, the resize surface, or encode — the color conversion
itself is pure arithmetic), the worker's message handler emits exactly
one error message, carrying the failing task's id and the failure's
message string, emits no done message (so no partial artifact), and
every message it emits is keyed by that task's id.  The handler is a
total function: the failure is absorbed by the catch arm rather than
escaping the execution context. -/
theorem handleMessage_error_isolation (codecInit : Except String Unit)
    (decJpeg decPng : List Nat → Except String ImageData)
    (resample : ImageData → Nat → Nat → Except String (List Nat))
    (kernel : WorkingColorProfile → WorkingColorProfile → Nat × Nat × Nat → Nat × Nat × Nat)
    (encAvif : ImageData → Int → Except String (List Nat))
    (encWebp : ImageData → ℚ → Except String (List Nat))
    (encJpeg : ImageData → ℚ → Except String (List Nat))
    (encPng : ImageData → Nat → Except String (List Nat))
    (message : WorkerConvertRequest) (e : String)
    (h : pipelineFailure codecInit decJpeg decPng resample kernel encAvif encWebp encJpeg
      encPng message = some e) :
    (handleMessage codecInit decJpeg decPng resample kernel encAvif encWebp encJpeg
        encPng message).filter isErrorResp = [WorkerResponse.error message.id e] ∧
    (handleMessage codecInit decJpeg decPng resample kernel encAvif encWebp encJpeg
        encPng message).filter isDoneResp = [] ∧
    ∀ r ∈ handleMessage codecInit decJpeg decPng resample kernel encAvif encWebp encJpeg
        encPng message, respId r = message.id := by
  unfold handleMessage pipelineFailure at *
  cases codecInit with
  | error s =>
    dsimp only at h ⊢
    simp only [Option.some.injEq] at h
    subst h
    simp [isErrorResp, isDoneResp, respId]
  | ok u =>
    cases hdec : decodeSourceImage decJpeg decPng message.sourceType message.buffer with
    | error s =>
      simp only [hdec] at h ⊢
      simp only [Option.some.injEq] at h
      subst h
      simp [isErrorResp, isDoneResp, respId]
    | ok p =>
      obtain ⟨imageData, profile⟩ := p
      simp only [hdec] at h ⊢
      cases hres : resizeImageData resample imageData message.shortEdge with
      | error s =>
        simp only [hres] at h ⊢
        simp only [Option.some.injEq] at h
        subst h
        simp [isErrorResp, isDoneResp, respId]
      | ok resized =>
        simp only [hres] at h ⊢
        cases henc : encodeByFormat encAvif encWebp encJpeg encPng
            (convertColorSpace kernel resized (resolveWorkingProfile profile)
              message.targetColorSpace) message with
        | error s =>
          simp only [henc] at h ⊢
          simp only [Option.some.injEq] at h
          subst h
          simp [isErrorResp, isDoneResp, respId]
        | ok buf =>
          simp only [henc] at h
          simp at h

/-- C7 witness: a task whose decoder rejects its bytes yields exactly one
error message with the task's id and no done message. -/
theorem handleMessage_error_isolation_witness :
    (handleMessage (Except.ok ()) (fun _ => Except.error "decode failed")
        (fun _ => Except.ok { width := 1, height := 1, data := [0, 0, 0, 255] })
        (fun _ _ _ => Except.ok []) (fun _ _ t => t) (fun _ _ => Except.ok [])
        (fun _ _ => Except.ok []) (fun _ _ => Except.ok []) (fun _ _ => Except.ok [])
        { id := "t1", sourceType := SourceType.jpeg, targetType := TargetType.tiff,
          targetColorSpace := WorkingColorProfile.srgb, targetQuality := 80,
          shortEdge := none, buffer := [] }).filter isErrorResp =
      [WorkerResponse.error "t1" "decode failed"] ∧
    (handleMessage (Except.ok ()) (fun _ => Except.error "decode failed")
        (fun _ => Except.ok { width := 1, height := 1, data := [0, 0, 0, 255] })
        (fun _ _ _ => Except.ok []) (fun _ _ t => t) (fun _ _ => Except.ok [])
        (fun _ _ => Except.ok []) (fun _ _ => Except.ok []) (fun _ _ => Except.ok [])
        { id := "t1", sourceType := SourceType.jpeg, targetType := TargetType.tiff,
          targetColorSpace := WorkingColorProfile.srgb, targetQuality := 80,
          shortEdge := none, buffer := [] }).filter isDoneResp = [] :=
  ⟨(handleMessage_error_isolation (Except.ok ()) (fun _ => Except.error "decode failed")
      (fun _ => Except.ok { width := 1, height := 1, data := [0, 0, 0, 255] })
      (fun _ _ _ => Except.ok []) (fun _ _ t => t) (fun _ _ => Except.ok [])
      (fun _ _ => Except.ok []) (fun _ _ => Except.ok []) (fun _ _ => Except.ok [])
      { id := "t1", sourceType := SourceType.jpeg, targetType := TargetType.tiff,
        targetColorSpace := WorkingColorProfile.srgb, targetQuality := 80,
        shortEdge := none, buffer := [] } "decode failed" rfl).1,
    (handleMessage_error_isolation (Except.ok ()) (fun _ => Except.error "decode failed")
      (fun _ => Except.ok { width := 1, height := 1, data := [0, 0, 0, 255] })
      (fun _ _ _ => Except.ok []) (fun _ _ t => t) (fun _ _ => Except.ok [])
      (fun _ _ => Except.ok []) (fun _ _ => Except.ok []) (fun _ _ => Except.ok [])
      { id := "t1", sourceType := SourceType.jpeg, targetType := TargetType.tiff,
        targetColorSpace := WorkingColorProfile.srgb, targetQuality := 80,
        shortEdge := none, buffer := [] } "decode failed" rfl).2.1⟩

/-! ### The detector claims (C9 termination, C4 characterization) -/

/-- Helper: a continuing scan iteration advances the offset by exactly 1
(stray non-0xff byte) or by at least 4 (marker pair, length pair, and a
payload of validated length at least 2), and only fires inside the
buffer. -/
theorem scanStep_next_facts : ∀ bytes offset o, scanStep bytes offset = ScanOutcome.next o →
    offset + 4 < bytes.length ∧ (o = offset + 1 ∨ offset + 4 ≤ o) := by
  intro bytes offset o h
  unfold scanStep at h
  dsimp only at h
  split at h
  case isFalse h1 => exact absurd h (by simp)
  case isTrue h1 =>
    refine ⟨h1, ?_⟩
    split at h
    · injection h with h2
      exact Or.inl h2.symm
    · split at h
      · exact absurd h (by simp)
      · split at h
        · exact absurd h (by simp)
        · split at h
          · exact absurd h (by simp)
          · split at h
            · split at h
              · split at h
                · exact absurd h (by simp)
                · split at h
                  · exact absurd h (by simp)
                  · injection h with h2
                    subst h2
                    right
                    omega
              · injection h with h2
                subst h2
                right
                omega
            · injection h with h2
              subst h2
              right
              omega

theorem scanFuel_total : ∀ fuel bytes offset, bytes.length - offset < fuel →
    ∃ r, scanFuel fuel bytes offset = some r := by
  intro fuel
  induction fuel with
  | zero => intro bytes offset h; omega
  | succ n ih =>
    intro bytes offset h
    unfold scanFuel
    cases hs : scanStep bytes offset with
    | halt r => exact ⟨r, rfl⟩
    | next o =>
      obtain ⟨hg, hinc⟩ := scanStep_next_facts bytes offset o hs
      rcases hinc with h1 | h1 <;> exact ih bytes o (by omega)

theorem begins_iff_append : ∀ p l : List Nat, begins p l = true ↔ ∃ t, l = p ++ t := by
  intro p
  induction p with
  | nil => intro l; simp [begins]
  | cons a ps ih =>
    intro l
    cases l with
    | nil => simp [begins]
    | cons b bs =>
      simp only [begins, Bool.and_eq_true, beq_iff_eq, ih bs, List.cons_append,
        List.cons.injEq]
      constructor
      · rintro ⟨rfl, t, rfl⟩
        exact ⟨t, rfl, rfl⟩
      · rintro ⟨t, rfl, rfl⟩
        exact ⟨rfl, t, rfl⟩

theorem begins_length : ∀ p l : List Nat, begins p l = true → p.length ≤ l.length := by
  intro p l h
  obtain ⟨t, rfl⟩ := (begins_iff_append p l).1 h
  simp

theorem adobeHit_length : ∀ l, adobeHit l = true → 4 ≤ l.length := by
  intro l h
  simp only [adobeHit, Bool.or_eq_true, Bool.and_eq_true] at h
  rcases h with h1 | ⟨h1, h2⟩ <;>
    · have := begins_length _ _ h1
      simp at this
      omega

theorem srgbHit_length : ∀ l, srgbHit l = true → 4 ≤ l.length := by
  intro l h
  have := begins_length _ _ h
  simpa using this

theorem iecHit_length : ∀ l, iecHit l = true → 4 ≤ l.length := by
  intro l h
  have := begins_length _ _ h
  simp at this
  omega

theorem anySuffix_length (hit : List Nat → Bool)
    (hmin : ∀ l, hit l = true → 4 ≤ l.length) :
    ∀ l, anySuffix hit l = true → 4 ≤ l.length := by
  intro l
  induction l with
  | nil => intro h; exact hmin [] h
  | cons b bs ih =>
    intro h
    simp only [anySuffix, Bool.or_eq_true] at h
    rcases h with h1 | h1
    · exact hmin _ h1
    · have := ih h1
      simp
      omega

theorem adobeMatch_icc_skip : ∀ t : List Nat,
    anySuffix adobeHit (iccId.map lowerByte ++ t) = anySuffix adobeHit t := by
  intro t
  simp [iccId, lowerByte, anySuffix, adobeHit, begins, jsWhitespaceB]

theorem srgbMatch_icc_skip : ∀ t : List Nat,
    anySuffix srgbHit (iccId.map lowerByte ++ t) = anySuffix srgbHit t := by
  intro t
  simp [iccId, lowerByte, anySuffix, srgbHit, begins]

theorem iecMatch_icc_skip : ∀ t : List Nat,
    anySuffix iecHit (iccId.map lowerByte ++ t) = anySuffix iecHit t := by
  intro t
  simp [iccId, lowerByte, anySuffix, iecHit, begins]

theorem matched_payload_length : ∀ seg : List Nat, begins iccId seg = true →
    (adobeMatch seg = true ∨ srgbMatch seg = true ∨ iecMatch seg = true) →
    14 ≤ seg.length := by
  intro seg hicc hm
  obtain ⟨t, rfl⟩ := (begins_iff_append iccId seg).1 hicc
  have hlen : 4 ≤ t.length := by
    rcases hm with h | h | h
    · rw [adobeMatch, List.map_append, adobeMatch_icc_skip] at h
      have := anySuffix_length adobeHit adobeHit_length _ h
      simpa using this
    · rw [srgbMatch, List.map_append, srgbMatch_icc_skip] at h
      have := anySuffix_length srgbHit srgbHit_length _ h
      simpa using this
    · rw [iecMatch, List.map_append, iecMatch_icc_skip] at h
      have := anySuffix_length iecHit iecHit_length _ h
      simpa using this
  simp [iccId]
  omega

theorem scanStep_eq_segStep : ∀ bytes offset,
    scanStep bytes offset =
      match segStep bytes offset with
      | none => ScanOutcome.halt ColorProfile.unknown
      | some (none, o) => ScanOutcome.next o
      | some (some seg, o) =>
        match classifySegment seg with
        | some p => ScanOutcome.halt p
        | none => ScanOutcome.next o := by
  intro bytes offset
  unfold scanStep segStep
  dsimp only
  split
  case isFalse h1 => rfl
  case isTrue h1 =>
    split
    · rfl
    case isFalse h2 =>
      split
      · rfl
      case isFalse h3 =>
        split
        · rfl
        case isFalse h4 =>
          split
          · rfl
          case isFalse h5 =>
            generalize (bytes.drop (offset + 4)).take
              (((bytes.getD (offset + 2) 0) <<< 8 ||| bytes.getD (offset + 3) 0) - 2) = seg
            simp only [List.getD]
            by_cases hm : (bytes[offset + 1]?).getD 0 = 0xe2
            · by_cases hicc : begins iccId seg = true
              · by_cases hA : adobeMatch seg = true
                · have h14 := matched_payload_length seg hicc (Or.inl hA)
                  simp [classifySegment, hm, hicc, hA, h14]
                · by_cases hS : srgbMatch seg = true
                  · have h14 := matched_payload_length seg hicc (Or.inr (Or.inl hS))
                    simp [classifySegment, hm, hicc, hA, hS, h14]
                  · by_cases hI : iecMatch seg = true
                    · have h14 := matched_payload_length seg hicc (Or.inr (Or.inr hI))
                      simp [classifySegment, hm, hicc, hA, hS, hI, h14]
                    · simp only [classifySegment, hm, hicc, hA, hS, hI]
                      split_ifs <;> first | rfl | simp_all
              · simp [classifySegment, hm, hicc]
            · simp [classifySegment, hm]

theorem scanFuel_classifies : ∀ fuel bytes offset r,
    scanFuel fuel bytes offset = some r →
    r = ((segmentsFuel fuel bytes offset).findSome? classifySegment).getD
      ColorProfile.unknown := by
  intro fuel
  induction fuel with
  | zero => intro bytes offset r h; exact absurd h (by simp [scanFuel])
  | succ n ih =>
    intro bytes offset r h
    rw [scanFuel, scanStep_eq_segStep] at h
    rw [segmentsFuel]
    cases hseg : segStep bytes offset with
    | none =>
      rw [hseg] at h
      simp only [Option.some.injEq] at h
      simp [h.symm]
    | some pr =>
      obtain ⟨s, o⟩ := pr
      cases s with
      | none =>
        rw [hseg] at h
        exact ih bytes o r h
      | some seg =>
        rw [hseg] at h
        dsimp only at h ⊢
        cases hc : classifySegment seg with
        | some p =>
          rw [hc] at h
          simp only [Option.some.injEq] at h
          simp [List.findSome?_cons, hc, h.symm]
        | none =>
          rw [hc] at h
          rw [List.findSome?_cons, hc]
          exact ih bytes o r h

/-- C9: the marker scan terminates on every buffer.  Each continuing
iteration strictly advances the offset - by 1 on a stray byte, by at
least 4 on a marker segment (a declared length below 2 or past the end
halts the scan instead) - so any fuel larger than the bytes left at the
starting offset completes the scan; in particular fuel bytes.length,
which detectJpegColorProfile uses, always yields a definite profile. -/
theorem scan_termination :
    (∀ bytes offset o, scanStep bytes offset = ScanOutcome.next o →
      o = offset + 1 ∨ offset + 4 ≤ o) ∧
    (∀ fuel bytes offset, bytes.length - offset < fuel →
      ∃ r, scanFuel fuel bytes offset = some r) :=
  ⟨fun bytes offset o h => (scanStep_next_facts bytes offset o h).2, scanFuel_total⟩

/-- C9 witness: a concrete step and a concrete completed scan. -/
theorem scan_termination_witness :
    ((3 : Nat) = 2 + 1 ∨ 2 + 4 ≤ 3) ∧
    (∃ r, scanFuel 6 [255, 216, 0, 0, 0, 0, 0] 2 = some r) :=
  ⟨scan_termination.1 [255, 216, 0, 0, 0, 0, 0] 2 3 (by decide),
   scan_termination.2 6 [255, 216, 0, 0, 0, 0, 0] 2 (by decide)⟩

/-- A crafted JPEG-like buffer: SOI, an APP2 ICC_PROFILE segment whose
text reads sRGB, then an APP2 ICC_PROFILE segment whose text reads
Adobe RGB (literally, with the space), then EOI. -/
def twoProfileBuf : List Nat :=
  [0xff, 0xd8,
   0xff, 0xe2, 0, 18,
   73, 67, 67, 95, 80, 82, 79, 70, 73, 76, 69, 0, 115, 82, 71, 66,
   0xff, 0xe2, 0, 23,
   73, 67, 67, 95, 80, 82, 79, 70, 73, 76, 69, 0, 65, 100, 111, 98, 101, 32, 82, 71, 66,
   0xff, 0xd9]

/-- C4 (counterexample): the claim as stated - Adobe-RGB whenever the
buffer contains, before the terminating marker, an APP2 ICC_PROFILE
segment whose text contains "Adobe RGB" - is false: in this buffer such
a segment exists, yet the detector answers sRGB, because an earlier
APP2 ICC_PROFILE segment matching sRGB wins (the scan returns at the
first matching segment). -/
theorem detect_first_match_counterexample :
    (∃ s ∈ jpegSegments twoProfileBuf, s.1 = 0xe2 ∧ begins iccId s.2 = true ∧
      containsAdobeRgbText s.2 = true) ∧
    detectJpegColorProfile twoProfileBuf = ColorProfile.srgb ∧
    detectJpegColorProfile twoProfileBuf ≠ ColorProfile.adobeRgb := by
  decide

/-- C4 (amended): the detector is total (the embedding is a total
function; no input escapes to an exception) and equals the first-match
reading of the claim: Unknown unless the buffer starts with SOI; then
walk the marker segments before SOS/EOI (a malformed or truncated
declared length ends the walk); the first APP2 segment whose payload
begins with ICC_PROFILE and whose latin1 text matches
/Adobe(single optional whitespace)RGB/i - checked before /sRGB/i and
/IEC61966/i within the segment - decides the result; Unknown when no
segment matches. -/
theorem detectJpegColorProfile_eq_spec : ∀ bytes : List Nat,
    detectJpegColorProfile bytes = detectJpegColorProfileSpec bytes := by
  intro bytes
  unfold detectJpegColorProfile detectJpegColorProfileSpec
  split
  · rfl
  case isFalse hnot =>
    have h4 : 4 ≤ bytes.length := by
      rcases Nat.lt_or_ge bytes.length 4 with h | h
      · exact absurd (Or.inl h) hnot
      · exact h
    obtain ⟨r, hr⟩ := scanFuel_total bytes.length bytes 2 (by omega)
    rw [hr]
    have := scanFuel_classifies bytes.length bytes 2 r hr
    rw [jpegSegments]
    simp [this]

end Convert
